import Mathlib

/-!
Verification of the YouTube transcript service (`src/main.py`).

The service is a thin pipeline: a regex-based identifier normalizer
(`extract_video_id`), a subprocess invocation of `yt-dlp` whose standard
output is parsed as JSON, an optional caption fetch via `curl` whose body
is parsed as timed-text XML, a pure field-defaulting response assembler,
and two HTTP handlers (POST body and GET query) sharing one code path.

The external world (the `yt-dlp` subprocess, the `curl` fetch, the JSON
and XML parsers of the runtime, and the runtime's message text for the
`TypeError` raised when joining a `None` item) is modelled as an explicit
environment; the repository's own control flow is translated directly.
-/

set_option maxHeartbeats 1000000

namespace YtSvc

/-- Character class `[a-zA-Z0-9_-]` of the three regular expressions in
`extract_video_id` (src/main.py lines 52-56). -/
def isIdChar (c : Char) : Bool :=
  ('a' ≤ c && c ≤ 'z') || ('A' ≤ c && c ≤ 'Z') || ('0' ≤ c && c ≤ '9') || c == '_' || c == '-'

/-- Attempt to match the regex `[?&]v=([a-zA-Z0-9_-]{11})` at the head of
the character list; on success, return the captured group. The quantifier
consumes exactly 11 identifier characters, so at a fixed position the
pattern matches iff at least 11 identifier characters follow `v=`, and the
capture is the first 11 of them. -/
def matchVParamAt (s : List Char) : Option (List Char) :=
  match s with
  | q :: t =>
    if (q == '?' || q == '&') && t.take 2 == ['v', '='] && decide (13 ≤ t.length)
        && ((t.drop 2).take 11).all isIdChar
    then some ((t.drop 2).take 11) else none
  | [] => none

/-- `re.search` of `[?&]v=([a-zA-Z0-9_-]{11})`: try the pattern at each
position left to right, returning the first capture. -/
def searchVParam : List Char → Option (List Char)
  | [] => none
  | q :: t =>
    match matchVParamAt (q :: t) with
    | some r => some r
    | none => searchVParam t

/-- The literal characters of `youtu\.be/` in the second pattern. -/
def shortLinkChars : List Char := ['y', 'o', 'u', 't', 'u', '.', 'b', 'e', '/']

/-- Attempt to match `youtu\.be/([a-zA-Z0-9_-]{11})` at the head of the
character list; on success, return the captured group. -/
def matchShortAt (s : List Char) : Option (List Char) :=
  if s.take 9 == shortLinkChars && decide (20 ≤ s.length)
      && ((s.drop 9).take 11).all isIdChar
  then some ((s.drop 9).take 11) else none

/-- `re.search` of `youtu\.be/([a-zA-Z0-9_-]{11})`. -/
def searchShort : List Char → Option (List Char)
  | [] => none
  | q :: t =>
    match matchShortAt (q :: t) with
    | some r => some r
    | none => searchShort t

/-- `re.search` of `^([a-zA-Z0-9_-]{11})$`. Without `re.MULTILINE`, `^`
matches only at the start of the string and `$` matches at the end of the
string or just before a newline that ends the string, so the pattern
matches exactly the strings made of 11 identifier characters optionally
followed by one trailing newline; the capture is those 11 characters. -/
def matchFullId (s : List Char) : Option (List Char) :=
  if s.length == 11 && s.all isIdChar then some s
  else if (s.take 11).all isIdChar && s.drop 11 == ['\n'] then some (s.take 11)
  else none

/-- `extract_video_id` (src/main.py lines 50-61): try the three patterns
in order with `re.search`, returning the first capture; if none matches,
return the input unchanged. -/
def extract_video_id (url : String) : String :=
  match searchVParam url.data with
  | some c => c.asString
  | none =>
    match searchShort url.data with
    | some c => c.asString
    | none =>
      match matchFullId url.data with
      | some c => c.asString
      | none => url

/-- An identifier-shaped token: exactly 11 characters from `[a-zA-Z0-9_-]`. -/
def IdToken (c : List Char) : Prop :=
  c.length = 11 ∧ c.all isIdChar = true

/-- The input contains a `v=` query parameter followed by 11 identifier
characters, with capture `c`. -/
def CapA (s c : List Char) : Prop :=
  ∃ pre q rest, (q = '?' ∨ q = '&') ∧ IdToken c ∧
    s = pre ++ q :: 'v' :: '=' :: (c ++ rest)

/-- The input contains a `youtu.be/` segment followed by 11 identifier
characters, with capture `c`. -/
def CapB (s c : List Char) : Prop :=
  ∃ pre rest, IdToken c ∧ s = pre ++ shortLinkChars ++ (c ++ rest)

/-- The whole input is an identifier-shaped token, optionally followed by
one trailing newline (the set matched by the anchored third pattern under
Python `$` semantics), with capture `c`. -/
def CapC (s c : List Char) : Prop :=
  IdToken c ∧ (s = c ∨ s = c ++ ['\n'])

example : extract_video_id "https://www.youtube.com/watch?v=dQw4w9WgXcQ" = "dQw4w9WgXcQ" := by decide
example : extract_video_id "https://youtu.be/dQw4w9WgXcQ" = "dQw4w9WgXcQ" := by decide
example : extract_video_id "dQw4w9WgXcQ" = "dQw4w9WgXcQ" := by decide
example : extract_video_id "abcdefghijk\n" = "abcdefghijk" := by decide
example : extract_video_id "not-an-id" = "not-an-id" := by decide
example : extract_video_id "?v=abcdefghijkl" = "abcdefghijk" := by decide

/-! ## The extraction pipeline

`get_yt_dlp_data` (src/main.py lines 63-144) and the two handlers
(lines 171-242). The external collaborators are gathered in `Env`. -/

/-- Outcome of one `subprocess.run(..., capture_output=True, text=True,
timeout=...)` call: either the timeout expired, or the process finished
with a return code, captured standard output and standard error. -/
inductive SubprocResult where
  | timeout
  | done (returncode : Int) (stdout : String) (stderr : String)
deriving DecidableEq

/-- The JSON document printed by `yt-dlp --dump-json`, restricted to the
fields the code reads. Subtitle and automatic-caption tables are modelled
as association lists from language code to the track's list of entries,
each entry reduced to its `url` field (the only key the code reads). An
absent key of the JSON object is `none`. -/
structure ExtractionData where
  title : Option String := none
  channel : Option String := none
  channel_url : Option String := none
  description : Option String := none
  duration : Option Int := none
  view_count : Option Int := none
  like_count : Option Int := none
  upload_date : Option String := none
  tags : Option (List String) := none
  categories : Option (List String) := none
  thumbnail : Option String := none
  subtitles : Option (List (String × List String)) := none
  automatic_captions : Option (List (String × List String)) := none
deriving DecidableEq

/-- Python dictionary lookup on the modelled association list. -/
def lookupKey (k : String) (l : List (String × List String)) : Option (List String) :=
  (l.find? (fun p => p.fst == k)).map (fun p => p.snd)

/-- The external world one request observes: the `yt-dlp` subprocess run
on the watch URL, the runtime's `json.loads` on its standard output, the
`curl` subprocess run on a caption URL, the runtime's
`ET.fromstring(...).findall('.//text')` on the fetched body (either a
parse failure with its message, or the list of the matched elements'
`.text` values in document order, `none` for an element with no text
node), and the runtime's message for the `TypeError` raised by
`' '.join` on a `None` item. -/
structure Env where
  ytdlp : String → SubprocResult
  jsonParse : String → Option ExtractionData
  curl : String → SubprocResult
  xmlParse : String → Except String (List (Option String))
  joinNoneMsg : String

/-- Exceptions that can escape the `try` body of `get_yt_dlp_data`:
`subprocess.TimeoutExpired`, `json.JSONDecodeError`, or any other
exception carrying its `str(e)` message. -/
inductive PyErr where
  | timeoutExpired
  | jsonDecodeError
  | exc (msg : String)
deriving DecidableEq

/-- The dictionary built at src/main.py lines 122-137. -/
structure YtFields where
  videoTitle : String
  videoId : String
  channelName : String
  channelUrl : String
  description : String
  duration : Int
  viewCount : Int
  likeCount : Int
  uploadDate : String
  tags : String
  categories : String
  thumbnailUrl : String
  transcript : String
  length : Nat
deriving DecidableEq

/-- The watch URL built at src/main.py line 69. -/
def watchUrl (video_id : String) : String :=
  "https://www.youtube.com/watch?v=" ++ video_id

/-- The response dictionary of src/main.py lines 122-137: each metadata
field is read with `data.get(key, default)`, list-valued fields are
joined with a comma-space separator, and `length` is `len(transcript)`. -/
def assemble (video_id : String) (data : ExtractionData) (transcript : String) : YtFields where
  videoTitle := data.title.getD ""
  videoId := video_id
  channelName := data.channel.getD ""
  channelUrl := data.channel_url.getD ""
  description := data.description.getD ""
  duration := data.duration.getD 0
  viewCount := data.view_count.getD 0
  likeCount := data.like_count.getD 0
  uploadDate := data.upload_date.getD ""
  tags := String.intercalate ", " (data.tags.getD [])
  categories := String.intercalate ", " (data.categories.getD [])
  thumbnailUrl := data.thumbnail.getD ""
  transcript := transcript
  length := transcript.length

/-- `' '.join([text.text for text in root.findall('.//text')])`
(src/main.py line 107/119): joining raises a `TypeError` when some
element's `.text` is `None`. -/
def joinTexts (env : Env) (elems : List (Option String)) : Except PyErr String :=
  if elems.all (fun t => t.isSome)
  then Except.ok (String.intercalate " " (elems.map (fun t => t.getD "")))
  else Except.error (PyErr.exc env.joinNoneMsg)

/-- One caption fetch (src/main.py lines 98-107 and 111-119): run
`curl -s url` under a 30-second timeout, parse the captured output as
XML, and join the text of the matched elements. -/
def fetchTranscript (env : Env) (url : String) : Except PyErr String :=
  match env.curl url with
  | SubprocResult.timeout => Except.error PyErr.timeoutExpired
  | SubprocResult.done _ stdout _ =>
    match env.xmlParse stdout with
    | Except.error m => Except.error (PyErr.exc m)
    | Except.ok elems => joinTexts env elems

/-- The caption stage (src/main.py lines 94-119): prefer the manual `en`
subtitle track, else the automatic `en` caption track, else the empty
transcript. Indexing `[0]` into an empty track list raises an
`IndexError`, whose CPython message is `list index out of range`. The
second component records the caption URLs fetched over the network,
including a fetch that timed out. -/
def transcriptStep (env : Env) (data : ExtractionData) :
    Except PyErr String × List String :=
  match data.subtitles.bind (lookupKey "en") with
  | some urls =>
    match urls with
    | [] => (Except.error (PyErr.exc "list index out of range"), [])
    | url :: _ => (fetchTranscript env url, [url])
  | none =>
    match data.automatic_captions.bind (lookupKey "en") with
    | some urls =>
      match urls with
      | [] => (Except.error (PyErr.exc "list index out of range"), [])
      | url :: _ => (fetchTranscript env url, [url])
    | none => (Except.ok "", [])

/-- The `except` clauses of src/main.py lines 139-144: a timeout becomes
`Exception("Request timeout")`, a JSON decode failure becomes
`Exception("Invalid JSON response from yt-dlp")`, and any other exception
`e` is re-raised as `Exception(f"Error: \x7bstr(e)\x7d")`. The result is
the final exception's message. -/
def wrapErr : PyErr → String
  | PyErr.timeoutExpired => "Request timeout"
  | PyErr.jsonDecodeError => "Invalid JSON response from yt-dlp"
  | PyErr.exc m => "Error: " ++ m

/-- `get_yt_dlp_data` (src/main.py lines 63-144): run `yt-dlp` on the
watch URL under a 60-second timeout; a non-zero exit raises
`Exception(f"yt-dlp error: \x7bresult.stderr\x7d")`; otherwise the standard
output is parsed as JSON, the caption stage runs, and the response
dictionary is assembled. Errors carry the message of the exception that
escapes, after the `except` clauses of lines 139-144. The second
component records the caption URLs fetched. -/
def get_yt_dlp_data (env : Env) (video_id : String) :
    Except String YtFields × List String :=
  match env.ytdlp (watchUrl video_id) with
  | SubprocResult.timeout => (Except.error (wrapErr PyErr.timeoutExpired), [])
  | SubprocResult.done returncode stdout stderr =>
    if returncode ≠ 0 then
      (Except.error (wrapErr (PyErr.exc ("yt-dlp error: " ++ stderr))), [])
    else
      match env.jsonParse stdout with
      | none => (Except.error (wrapErr PyErr.jsonDecodeError), [])
      | some data =>
        match transcriptStep env data with
        | (Except.error e, log) => (Except.error (wrapErr e), log)
        | (Except.ok transcript, log) =>
          (Except.ok (assemble video_id data transcript), log)

/-- The POST body model (src/main.py lines 29-30). -/
structure TranscriptRequest where
  video_id : String
deriving DecidableEq

/-- The response model (src/main.py lines 32-48); every field except
`success` and `videoId` is optional and defaults to `None`. -/
structure TranscriptResponse where
  success : Bool
  videoId : String
  videoTitle : Option String := none
  channelName : Option String := none
  channelUrl : Option String := none
  description : Option String := none
  duration : Option Int := none
  viewCount : Option Int := none
  likeCount : Option Int := none
  uploadDate : Option String := none
  tags : Option String := none
  categories : Option String := none
  thumbnailUrl : Option String := none
  transcript : Option String := none
  length : Option Nat := none
  error : Option String := none
deriving DecidableEq

/-- What a handler invocation produces at the HTTP boundary: either an
`HTTPException` escaping to the framework (an error status with a detail
message), or a `TranscriptResponse` body delivered with status 200. -/
inductive HandlerResult where
  | httpError (statusCode : Nat) (detail : String)
  | ok (resp : TranscriptResponse)
deriving DecidableEq

/-- The POST handler `get_transcript` (src/main.py lines 171-228):
normalize the identifier; if its length is not 11, raise
`HTTPException(400, ...)`, which the `except HTTPException: raise` clause
re-raises to the framework; otherwise run the pipeline. A successful run
yields a success response carrying the normalized identifier and the
assembled fields; any other exception yields a success=false response
carrying the raw `request.video_id` and the exception's message. -/
def get_transcript (env : Env) (request : TranscriptRequest) : HandlerResult :=
  if (extract_video_id request.video_id).length ≠ 11 then
    HandlerResult.httpError 400
      ("Invalid video_id: " ++ extract_video_id request.video_id ++ ". Must be 11 characters.")
  else
    match get_yt_dlp_data env (extract_video_id request.video_id) with
    | (Except.ok d, _) =>
      HandlerResult.ok
        { success := true
          videoId := extract_video_id request.video_id
          videoTitle := some d.videoTitle
          channelName := some d.channelName
          channelUrl := some d.channelUrl
          description := some d.description
          duration := some d.duration
          viewCount := some d.viewCount
          likeCount := some d.likeCount
          uploadDate := some d.uploadDate
          tags := some d.tags
          categories := some d.categories
          thumbnailUrl := some d.thumbnailUrl
          transcript := some d.transcript
          length := some d.length }
    | (Except.error e, _) =>
      HandlerResult.ok { success := false, videoId := request.video_id, error := some e }

/-- The GET handler `get_transcript_get` (src/main.py lines 230-242):
wrap the query parameter in a `TranscriptRequest` and delegate. -/
def get_transcript_get (env : Env) (video_id : String) : HandlerResult :=
  get_transcript env { video_id := video_id }

/-! ## Soundness and completeness of the three pattern searches -/

theorem matchVParamAt_sound {s c : List Char} (h : matchVParamAt s = some c) :
    ∃ q rest, (q = '?' ∨ q = '&') ∧ IdToken c ∧
      s = q :: 'v' :: '=' :: (c ++ rest) := by
  cases s with
  | nil => simp [matchVParamAt] at h
  | cons q t =>
    rw [matchVParamAt] at h
    split at h
    case isTrue hcond =>
      injection h with hc
      simp only [Bool.and_eq_true, Bool.or_eq_true, beq_iff_eq,
        decide_eq_true_eq] at hcond
      obtain ⟨⟨⟨hq, ht2⟩, hlen⟩, hall⟩ := hcond
      refine ⟨q, (t.drop 2).drop 11, hq, ?_, ?_⟩
      · refine ⟨?_, by rw [hc] at hall; exact hall⟩
        rw [← hc]
        simp only [List.length_take, List.length_drop]
        omega
      · have ht : t = 'v' :: '=' :: t.drop 2 := by
          conv_lhs => rw [← List.take_append_drop 2 t]
          rw [ht2]
          rfl
        rw [← hc, List.take_append_drop]
        exact congrArg (fun l => q :: l) ht
    case isFalse => exact absurd h (by simp)

theorem searchVParam_sound {s c : List Char} (h : searchVParam s = some c) :
    CapA s c := by
  induction s with
  | nil => simp [searchVParam] at h
  | cons a t ih =>
    rw [searchVParam] at h
    cases hm : matchVParamAt (a :: t) with
    | some r =>
      rw [hm] at h
      injection h with hr
      subst hr
      obtain ⟨q, rest, hq, hc, hs⟩ := matchVParamAt_sound hm
      exact ⟨[], q, rest, hq, hc, by simpa using hs⟩
    | none =>
      rw [hm] at h
      obtain ⟨pre, q, rest, hq, hc, hs⟩ := ih h
      exact ⟨a :: pre, q, rest, hq, hc, by rw [List.cons_append, ← hs]⟩

theorem searchVParam_complete {s c : List Char} (h : CapA s c) :
    (searchVParam s).isSome = true := by
  obtain ⟨pre, q, rest, hq, hc, hs⟩ := h
  subst hs
  induction pre with
  | nil =>
    have htake : (c ++ rest).take 11 = c := List.take_left' hc.1
    have hcond : ((q == '?' || q == '&')
        && ('v' :: '=' :: (c ++ rest)).take 2 == ['v', '=']
        && decide (13 ≤ ('v' :: '=' :: (c ++ rest)).length)
        && ((('v' :: '=' :: (c ++ rest)).drop 2).take 11).all isIdChar) = true := by
      have hd : ('v' :: '=' :: (c ++ rest)).drop 2 = c ++ rest := rfl
      simp only [Bool.and_eq_true, Bool.or_eq_true, beq_iff_eq, decide_eq_true_eq,
        List.length_cons, List.length_append, hd, htake]
      refine ⟨⟨⟨?_, rfl⟩, by have := hc.1; omega⟩, hc.2⟩
      rcases hq with h | h <;> simp [h]
    have hm : matchVParamAt (q :: 'v' :: '=' :: (c ++ rest)) = some c := by
      rw [matchVParamAt, if_pos hcond]
      rw [show ('v' :: '=' :: (c ++ rest)).drop 2 = c ++ rest from rfl, htake]
    simp [searchVParam, hm]
  | cons p pre ih =>
    rw [List.cons_append, searchVParam]
    cases hm : matchVParamAt (p :: (pre ++ q :: 'v' :: '=' :: (c ++ rest))) with
    | some r => simp
    | none => exact ih

theorem searchVParam_eq_none {s : List Char} (h : ¬ ∃ c, CapA s c) :
    searchVParam s = none := by
  cases hm : searchVParam s with
  | none => rfl
  | some r => exact absurd ⟨r, searchVParam_sound hm⟩ h

theorem matchShortAt_sound {s c : List Char} (h : matchShortAt s = some c) :
    ∃ rest, IdToken c ∧ s = shortLinkChars ++ (c ++ rest) := by
  rw [matchShortAt] at h
  split at h
  case isTrue hcond =>
    injection h with hc
    simp only [Bool.and_eq_true, beq_iff_eq, decide_eq_true_eq] at hcond
    obtain ⟨⟨ht9, hlen⟩, hall⟩ := hcond
    refine ⟨(s.drop 9).drop 11, ?_, ?_⟩
    · refine ⟨?_, by rw [hc] at hall; exact hall⟩
      rw [← hc]
      simp only [List.length_take, List.length_drop]
      omega
    · rw [← hc, List.take_append_drop]
      conv_lhs => rw [← List.take_append_drop 9 s]
      rw [ht9]
  case isFalse => exact absurd h (by simp)

theorem searchShort_sound {s c : List Char} (h : searchShort s = some c) :
    CapB s c := by
  induction s with
  | nil => simp [searchShort] at h
  | cons a t ih =>
    rw [searchShort] at h
    cases hm : matchShortAt (a :: t) with
    | some r =>
      rw [hm] at h
      injection h with hr
      subst hr
      obtain ⟨rest, hc, hs⟩ := matchShortAt_sound hm
      exact ⟨[], rest, hc, by simpa using hs⟩
    | none =>
      rw [hm] at h
      obtain ⟨pre, rest, hc, hs⟩ := ih h
      refine ⟨a :: pre, rest, hc, ?_⟩
      simp only [List.cons_append]
      rw [← hs]

theorem searchShort_complete {s c : List Char} (h : CapB s c) :
    (searchShort s).isSome = true := by
  obtain ⟨pre, rest, hc, hs⟩ := h
  subst hs
  induction pre with
  | nil =>
    have htake : (c ++ rest).take 11 = c := List.take_left' hc.1
    have hd : (shortLinkChars ++ (c ++ rest)).drop 9 = c ++ rest := rfl
    have ht9 : (shortLinkChars ++ (c ++ rest)).take 9 = shortLinkChars := rfl
    have hlen20 : 20 ≤ (shortLinkChars ++ (c ++ rest)).length := by
      have h9 : shortLinkChars.length = 9 := rfl
      simp only [List.length_append, h9]
      have := hc.1
      omega
    have hcond : ((shortLinkChars ++ (c ++ rest)).take 9 == shortLinkChars
        && decide (20 ≤ (shortLinkChars ++ (c ++ rest)).length)
        && (((shortLinkChars ++ (c ++ rest)).drop 9).take 11).all isIdChar) = true := by
      rw [ht9, hd, htake]
      simp only [Bool.and_eq_true, beq_iff_eq, decide_eq_true_eq]
      exact ⟨⟨trivial, hlen20⟩, hc.2⟩
    have hm : matchShortAt ('y' :: 'o' :: 'u' :: 't' :: 'u' :: '.' :: 'b' :: 'e' :: '/' :: (c ++ rest))
        = some c := by
      rw [show ('y' :: 'o' :: 'u' :: 't' :: 'u' :: '.' :: 'b' :: 'e' :: '/' :: (c ++ rest))
          = shortLinkChars ++ (c ++ rest) from rfl]
      rw [matchShortAt, if_pos hcond, hd, htake]
    simp only [List.nil_append]
    show (searchShort ('y' :: 'o' :: 'u' :: 't' :: 'u' :: '.' :: 'b' :: 'e' :: '/' :: (c ++ rest))).isSome = true
    rw [searchShort, hm]
    rfl
  | cons p pre ih =>
    simp only [List.cons_append]
    rw [searchShort]
    cases hm : matchShortAt (p :: (pre ++ shortLinkChars ++ (c ++ rest))) with
    | some r => simp
    | none => exact ih

theorem searchShort_eq_none {s : List Char} (h : ¬ ∃ c, CapB s c) :
    searchShort s = none := by
  cases hm : searchShort s with
  | none => rfl
  | some r => exact absurd ⟨r, searchShort_sound hm⟩ h

theorem matchFullId_sound {s c : List Char} (h : matchFullId s = some c) :
    CapC s c := by
  rw [matchFullId] at h
  split at h
  case isTrue hcond =>
    injection h with hc
    subst hc
    simp only [Bool.and_eq_true, beq_iff_eq] at hcond
    exact ⟨⟨hcond.1, hcond.2⟩, Or.inl rfl⟩
  case isFalse =>
    split at h
    case isTrue hcond =>
      injection h with hc
      simp only [Bool.and_eq_true, beq_iff_eq] at hcond
      obtain ⟨hall, hdrop⟩ := hcond
      have hlen : s.length = 12 := by
        have := congrArg List.length hdrop
        simp only [List.length_drop, List.length_cons, List.length_nil] at this
        omega
      refine ⟨⟨?_, by rw [← hc]; exact hall⟩, Or.inr ?_⟩
      · rw [← hc]
        simp only [List.length_take, hlen]
        omega
      · rw [← hc, ← hdrop, List.take_append_drop]
    case isFalse => exact absurd h (by simp)

theorem matchFullId_complete {s c : List Char} (h : CapC s c) :
    (matchFullId s).isSome = true := by
  obtain ⟨hc, hs | hs⟩ := h <;> subst hs
  · rw [matchFullId, if_pos (by simp [hc.1, hc.2])]
    rfl
  · rw [matchFullId]
    rw [if_neg (by simp [List.length_append, hc.1])]
    have hcond2 : (((c ++ ['\n']).take 11).all isIdChar
        && (c ++ ['\n']).drop 11 == ['\n']) = true := by
      simp only [Bool.and_eq_true, beq_iff_eq]
      exact ⟨by rw [List.take_left' hc.1]; exact hc.2, List.drop_left' hc.1⟩
    rw [if_pos hcond2]
    rfl

theorem matchFullId_eq_none {s : List Char} (h : ¬ ∃ c, CapC s c) :
    matchFullId s = none := by
  cases hm : matchFullId s with
  | none => rfl
  | some r => exact absurd ⟨r, matchFullId_sound hm⟩ h

/-! ## Reduction lemmas for `extract_video_id` -/

theorem extract_of_vparam {url : String} {c : List Char}
    (h : searchVParam url.data = some c) : extract_video_id url = c.asString := by
  unfold extract_video_id
  rw [h]

theorem extract_of_short {url : String} {c : List Char}
    (h1 : searchVParam url.data = none) (h2 : searchShort url.data = some c) :
    extract_video_id url = c.asString := by
  unfold extract_video_id
  rw [h1, h2]

theorem extract_of_full {url : String} {c : List Char}
    (h1 : searchVParam url.data = none) (h2 : searchShort url.data = none)
    (h3 : matchFullId url.data = some c) :
    extract_video_id url = c.asString := by
  unfold extract_video_id
  rw [h1, h2, h3]

theorem extract_of_no_match {url : String}
    (h1 : searchVParam url.data = none) (h2 : searchShort url.data = none)
    (h3 : matchFullId url.data = none) :
    extract_video_id url = url := by
  unfold extract_video_id
  rw [h1, h2, h3]

/-! ## Claim C1 -/

/-- C1 (amended): `extract_video_id` tries, in order, the `v=` query
parameter pattern, the `youtu.be/` short-link pattern, and the anchored
whole-input pattern — where, by Python `$` semantics, the anchored
pattern accepts an 11-character identifier-shaped input optionally
followed by one trailing newline — and returns the captured 11
characters of the first pattern that matches; if none of the three
matches, it returns the original input string unchanged. -/
theorem C1_extract_video_id_characterization (url : String) :
    ((∃ c, CapA url.data c) →
      ∃ c, CapA url.data c ∧ extract_video_id url = c.asString) ∧
    ((¬ ∃ c, CapA url.data c) → (∃ c, CapB url.data c) →
      ∃ c, CapB url.data c ∧ extract_video_id url = c.asString) ∧
    ((¬ ∃ c, CapA url.data c) → (¬ ∃ c, CapB url.data c) → (∃ c, CapC url.data c) →
      ∃ c, CapC url.data c ∧ extract_video_id url = c.asString) ∧
    ((¬ ∃ c, CapA url.data c) → (¬ ∃ c, CapB url.data c) → (¬ ∃ c, CapC url.data c) →
      extract_video_id url = url) := by
  refine ⟨?_, ?_, ?_, ?_⟩
  · rintro ⟨c, hc⟩
    have h := searchVParam_complete hc
    cases hm : searchVParam url.data with
    | none => rw [hm] at h; simp at h
    | some r => exact ⟨r, searchVParam_sound hm, extract_of_vparam hm⟩
  · rintro hA ⟨c, hc⟩
    have h := searchShort_complete hc
    cases hm : searchShort url.data with
    | none => rw [hm] at h; simp at h
    | some r =>
      exact ⟨r, searchShort_sound hm, extract_of_short (searchVParam_eq_none hA) hm⟩
  · rintro hA hB ⟨c, hc⟩
    have h := matchFullId_complete hc
    cases hm : matchFullId url.data with
    | none => rw [hm] at h; simp at h
    | some r =>
      exact ⟨r, matchFullId_sound hm,
        extract_of_full (searchVParam_eq_none hA) (searchShort_eq_none hB) hm⟩
  · intro hA hB hC
    exact extract_of_no_match (searchVParam_eq_none hA) (searchShort_eq_none hB)
      (matchFullId_eq_none hC)

/-- Witness for C1: on a full watch URL the first pattern matches and the
11-character identifier is extracted. -/
theorem C1_witness :
    ∃ c, CapA "https://www.youtube.com/watch?v=dQw4w9WgXcQ".data c ∧
      extract_video_id "https://www.youtube.com/watch?v=dQw4w9WgXcQ" = c.asString := by
  apply (C1_extract_video_id_characterization "https://www.youtube.com/watch?v=dQw4w9WgXcQ").1
  exact ⟨"dQw4w9WgXcQ".data, "https://www.youtube.com/watch".data, '?', [],
    Or.inl rfl, ⟨by decide, by decide⟩, by decide⟩

/-- Counterexample to C1 as stated: on the input made of 11 identifier
characters followed by a newline, none of the three patterns as described
by the claim matches (no `v=` parameter, no `youtu.be/` segment, and the
whole input is not exactly an 11-character identifier-shaped string), yet
`extract_video_id` does not return the input unchanged — it strips the
newline, because Python `$` also matches just before a trailing
newline. -/
theorem C1_counterexample :
    (¬ ∃ c, CapA "abcdefghijk\n".data c) ∧
    (¬ ∃ c, CapB "abcdefghijk\n".data c) ∧
    ¬ IdToken "abcdefghijk\n".data ∧
    extract_video_id "abcdefghijk\n" ≠ "abcdefghijk\n" := by
  refine ⟨?_, ?_, fun h => absurd h.1 (by decide), by decide⟩
  · rintro ⟨c, hc⟩
    exact absurd (searchVParam_complete hc) (by decide)
  · rintro ⟨c, hc⟩
    exact absurd (searchShort_complete hc) (by decide)

/-! ## Claim C2 -/

/-- A sample environment for concrete instantiations: the tool times out,
nothing parses. -/
def sampleEnv : Env where
  ytdlp := fun _ => SubprocResult.timeout
  jsonParse := fun _ => none
  curl := fun _ => SubprocResult.timeout
  xmlParse := fun _ => Except.error "XML parse failure"
  joinNoneMsg := "join TypeError"

/-- C2: when the normalized identifier's length is not 11, both the POST
body handler and the GET query handler fail with HTTP 400 and a
descriptive message, as a request-level error and not as a success=false
response body. -/
theorem C2_invalid_length_400 (env : Env) (req : TranscriptRequest)
    (h : (extract_video_id req.video_id).length ≠ 11) :
    get_transcript env req = HandlerResult.httpError 400
        ("Invalid video_id: " ++ extract_video_id req.video_id ++ ". Must be 11 characters.") ∧
    get_transcript_get env req.video_id = HandlerResult.httpError 400
        ("Invalid video_id: " ++ extract_video_id req.video_id ++ ". Must be 11 characters.") ∧
    ∀ resp, get_transcript env req ≠ HandlerResult.ok resp := by
  have h1 : get_transcript env req = HandlerResult.httpError 400
      ("Invalid video_id: " ++ extract_video_id req.video_id ++ ". Must be 11 characters.") := by
    rw [get_transcript, if_pos h]
  refine ⟨h1, h1, ?_⟩
  intro resp hcontra
  rw [h1] at hcontra
  exact HandlerResult.noConfusion hcontra

/-- Witness for C2: a 5-character input is rejected with HTTP 400. -/
theorem C2_witness :
    (extract_video_id "short").length ≠ 11 ∧
    get_transcript sampleEnv { video_id := "short" } = HandlerResult.httpError 400
      ("Invalid video_id: " ++ extract_video_id "short" ++ ". Must be 11 characters.") :=
  ⟨by decide, (C2_invalid_length_400 sampleEnv { video_id := "short" } (by decide)).1⟩

/-! ## Handler reduction helpers -/

theorem handler_of_error {env : Env} {req : TranscriptRequest} {e : String}
    {log : List String}
    (hv : (extract_video_id req.video_id).length = 11)
    (h : get_yt_dlp_data env (extract_video_id req.video_id) = (Except.error e, log)) :
    get_transcript env req = HandlerResult.ok
      { success := false, videoId := req.video_id, error := some e } := by
  rw [get_transcript, if_neg (by simp [hv]), h]

theorem handler_of_ok {env : Env} {req : TranscriptRequest} {d : YtFields}
    {log : List String}
    (hv : (extract_video_id req.video_id).length = 11)
    (h : get_yt_dlp_data env (extract_video_id req.video_id) = (Except.ok d, log)) :
    get_transcript env req = HandlerResult.ok
      { success := true
        videoId := extract_video_id req.video_id
        videoTitle := some d.videoTitle
        channelName := some d.channelName
        channelUrl := some d.channelUrl
        description := some d.description
        duration := some d.duration
        viewCount := some d.viewCount
        likeCount := some d.likeCount
        uploadDate := some d.uploadDate
        tags := some d.tags
        categories := some d.categories
        thumbnailUrl := some d.thumbnailUrl
        transcript := some d.transcript
        length := some d.length } := by
  rw [get_transcript, if_neg (by simp [hv]), h]

theorem ytdlp_timeout_error {env : Env} {vid : String}
    (h : env.ytdlp (watchUrl vid) = SubprocResult.timeout) :
    get_yt_dlp_data env vid = (Except.error "Request timeout", []) := by
  simp only [get_yt_dlp_data, h]
  rfl

theorem curl_timeout_error {env : Env} {vid out err url : String}
    {data : ExtractionData} {rest : List String}
    (h1 : env.ytdlp (watchUrl vid) = SubprocResult.done 0 out err)
    (h2 : env.jsonParse out = some data)
    (h3 : data.subtitles.bind (lookupKey "en") = some (url :: rest) ∨
      (data.subtitles.bind (lookupKey "en") = none ∧
        data.automatic_captions.bind (lookupKey "en") = some (url :: rest)))
    (h4 : env.curl url = SubprocResult.timeout) :
    get_yt_dlp_data env vid = (Except.error "Request timeout", [url]) := by
  have hfetch : fetchTranscript env url = Except.error PyErr.timeoutExpired := by
    rw [fetchTranscript, h4]
  have hstep : transcriptStep env data = (Except.error PyErr.timeoutExpired, [url]) := by
    rcases h3 with h3 | ⟨h3a, h3b⟩
    · simp only [transcriptStep, h3, hfetch]
    · simp only [transcriptStep, h3a, h3b, hfetch]
  simp only [get_yt_dlp_data, h1, h2, hstep]
  rfl

/-! ## Claim C3 -/

/-- C3: the caption stage uses the manual `en` subtitle track whenever it
is present — its first URL is the one fetched, whatever the automatic
track holds — and when neither the manual nor the automatic `en` track is
present, the transcript is the empty string, no caption URL is fetched,
and the assembled response has length 0. -/
theorem C3_caption_priority (env : Env) (data : ExtractionData) :
    (∀ url rest, data.subtitles.bind (lookupKey "en") = some (url :: rest) →
      transcriptStep env data = (fetchTranscript env url, [url])) ∧
    (data.subtitles.bind (lookupKey "en") = none →
      data.automatic_captions.bind (lookupKey "en") = none →
      transcriptStep env data = (Except.ok "", []) ∧
      ∀ vid, (assemble vid data "").transcript = "" ∧ (assemble vid data "").length = 0) := by
  constructor
  · intro url rest h
    simp only [transcriptStep, h]
  · intro h1 h2
    refine ⟨by simp only [transcriptStep, h1, h2], fun vid => ⟨rfl, rfl⟩⟩

/-- Extraction record with both a manual and an automatic English track
and a two-element tags list. -/
def dataBoth : ExtractionData :=
  { tags := some ["music", "live"]
    subtitles := some [("en", ["https://c/manual"])]
    automatic_captions := some [("en", ["https://c/auto"])] }

/-- Extraction record with no subtitle or caption entries at all. -/
def dataNoTracks : ExtractionData := {}

/-- Witness for C3: with both tracks present the manual URL is the one
fetched; with no tracks the transcript is empty and nothing is fetched. -/
theorem C3_witness :
    transcriptStep sampleEnv dataBoth
      = (fetchTranscript sampleEnv "https://c/manual", ["https://c/manual"]) ∧
    transcriptStep sampleEnv dataNoTracks = (Except.ok "", []) :=
  ⟨(C3_caption_priority sampleEnv dataBoth).1 "https://c/manual" [] (by decide),
    ((C3_caption_priority sampleEnv dataNoTracks).2 (by decide) (by decide)).1⟩

/-! ## Claim C4 -/

theorem map_getD_map_some (l : List String) :
    (l.map some).map (fun t => t.getD "") = l := by
  induction l with
  | nil => rfl
  | cons a t ih =>
    simp only [List.map_cons, Option.getD_some, List.cons.injEq]
    exact ⟨trivial, ih⟩

/-- C4: when a caption track is found and the fetched timed-text document
parses into text elements each carrying text, the transcript is those
texts in document order joined by single spaces, and the response length
field is the character count of the joined string. -/
theorem C4_transcript_join (env : Env) (vid out err : String) (rc2 : Int)
    (doc err2 : String) (data : ExtractionData) (url : String)
    (rest : List String) (texts : List String)
    (h1 : env.ytdlp (watchUrl vid) = SubprocResult.done 0 out err)
    (h2 : env.jsonParse out = some data)
    (h3 : data.subtitles.bind (lookupKey "en") = some (url :: rest))
    (h4 : env.curl url = SubprocResult.done rc2 doc err2)
    (h5 : env.xmlParse doc = Except.ok (texts.map some)) :
    (get_yt_dlp_data env vid).fst
      = Except.ok (assemble vid data (String.intercalate " " texts)) ∧
    (assemble vid data (String.intercalate " " texts)).transcript
      = String.intercalate " " texts ∧
    (assemble vid data (String.intercalate " " texts)).length
      = (String.intercalate " " texts).length := by
  have hall : ((texts.map some).all (fun t => t.isSome)) = true := by
    simp [List.all_eq_true]
  have hmap : (texts.map some).map (fun t => t.getD "") = texts :=
    map_getD_map_some texts
  have hjoin : joinTexts env (texts.map some)
      = Except.ok (String.intercalate " " texts) := by
    rw [joinTexts, if_pos hall, hmap]
  have hfetch : fetchTranscript env url
      = Except.ok (String.intercalate " " texts) := by
    simp only [fetchTranscript, h4, h5, hjoin]
  have hstep : transcriptStep env data
      = (Except.ok (String.intercalate " " texts), [url]) := by
    simp only [transcriptStep, h3, hfetch]
  refine ⟨?_, rfl, rfl⟩
  simp only [get_yt_dlp_data, h1, h2, hstep]
  rfl

/-- Environment whose caption document parses into the two text elements
`Hello` and `world`. -/
def envHello : Env where
  ytdlp := fun _ => SubprocResult.done 0 "json" ""
  jsonParse := fun _ => some dataBoth
  curl := fun _ => SubprocResult.done 0 "doc" ""
  xmlParse := fun _ => Except.ok [some "Hello", some "world"]
  joinNoneMsg := "join TypeError"

/-- Witness for C4: `<text>Hello</text><text>world</text>` yields the
transcript `Hello world` of length 11. -/
theorem C4_witness :
    (get_yt_dlp_data envHello "dQw4w9WgXcQ").fst
      = Except.ok (assemble "dQw4w9WgXcQ" dataBoth "Hello world") ∧
    (assemble "dQw4w9WgXcQ" dataBoth "Hello world").transcript = "Hello world" ∧
    (assemble "dQw4w9WgXcQ" dataBoth "Hello world").length = 11 := by
  have h := C4_transcript_join envHello "dQw4w9WgXcQ" "json" "" 0 "doc" ""
    dataBoth "https://c/manual" [] ["Hello", "world"] rfl rfl (by decide) rfl rfl
  have hs : String.intercalate " " ["Hello", "world"] = "Hello world" := by decide
  rw [hs] at h
  exact ⟨h.1, h.2.1, by rw [h.2.2]; decide⟩

/-! ## Claim C5 -/

/-- C5: the response assembler is a pure mapping substituting defaults
for absent fields — empty string for text, date and thumbnail fields,
zero for duration, view count and like count — and joining list-valued
tags and categories with a comma-space separator (empty string when the
list is absent). -/
theorem C5_assembler_defaults (vid : String) (data : ExtractionData) (t : String) :
    (data.title = none → (assemble vid data t).videoTitle = "") ∧
    (data.channel = none → (assemble vid data t).channelName = "") ∧
    (data.channel_url = none → (assemble vid data t).channelUrl = "") ∧
    (data.description = none → (assemble vid data t).description = "") ∧
    (data.upload_date = none → (assemble vid data t).uploadDate = "") ∧
    (data.thumbnail = none → (assemble vid data t).thumbnailUrl = "") ∧
    (data.duration = none → (assemble vid data t).duration = 0) ∧
    (data.view_count = none → (assemble vid data t).viewCount = 0) ∧
    (data.like_count = none → (assemble vid data t).likeCount = 0) ∧
    ((assemble vid data t).tags = String.intercalate ", " (data.tags.getD [])) ∧
    ((assemble vid data t).categories
      = String.intercalate ", " (data.categories.getD [])) ∧
    (data.tags = none → (assemble vid data t).tags = "") ∧
    (data.categories = none → (assemble vid data t).categories = "") := by
  refine ⟨fun h => ?_, fun h => ?_, fun h => ?_, fun h => ?_, fun h => ?_, fun h => ?_,
    fun h => ?_, fun h => ?_, fun h => ?_, rfl, rfl, fun h => ?_, fun h => ?_⟩ <;>
    simp [assemble, h, String.intercalate]

/-- Witness for C5: tags `["music","live"]` assemble to `"music, live"`;
absent fields assemble to the defaults. -/
theorem C5_witness :
    (assemble "dQw4w9WgXcQ" dataBoth "").tags = "music, live" ∧
    (assemble "dQw4w9WgXcQ" dataNoTracks "").videoTitle = "" ∧
    (assemble "dQw4w9WgXcQ" dataNoTracks "").duration = 0 := by
  refine ⟨?_, ?_, ?_⟩
  · have h := (C5_assembler_defaults "dQw4w9WgXcQ" dataBoth "").2.2.2.2.2.2.2.2.2.1
    rw [h]
    decide
  · exact (C5_assembler_defaults "dQw4w9WgXcQ" dataNoTracks "").1 rfl
  · exact (C5_assembler_defaults "dQw4w9WgXcQ" dataNoTracks "").2.2.2.2.2.2.1 rfl

/-! ## Claim C6 -/

/-- C6: when the metadata subprocess (60-second bound) or the caption
fetch (30-second bound) times out, the handler returns a success=false
body with error exactly "Request timeout", delivered as a structured
200-status body rather than an HTTP error. -/
theorem C6_timeout (env : Env) (req : TranscriptRequest)
    (hv : (extract_video_id req.video_id).length = 11)
    (h : env.ytdlp (watchUrl (extract_video_id req.video_id)) = SubprocResult.timeout
      ∨ ∃ out err data url rest,
          env.ytdlp (watchUrl (extract_video_id req.video_id))
            = SubprocResult.done 0 out err ∧
          env.jsonParse out = some data ∧
          (data.subtitles.bind (lookupKey "en") = some (url :: rest) ∨
            (data.subtitles.bind (lookupKey "en") = none ∧
              data.automatic_captions.bind (lookupKey "en") = some (url :: rest))) ∧
          env.curl url = SubprocResult.timeout) :
    get_transcript env req = HandlerResult.ok
      { success := false, videoId := req.video_id, error := some "Request timeout" } := by
  rcases h with h | ⟨out, err, data, url, rest, h1, h2, h3, h4⟩
  · exact handler_of_error hv (ytdlp_timeout_error h)
  · exact handler_of_error hv (curl_timeout_error h1 h2 h3 h4)

/-- Witness for C6: a timed-out `yt-dlp` run yields the "Request timeout"
failure body. -/
theorem C6_witness :
    get_transcript sampleEnv { video_id := "dQw4w9WgXcQ" } = HandlerResult.ok
      { success := false, videoId := "dQw4w9WgXcQ", error := some "Request timeout" } :=
  C6_timeout sampleEnv { video_id := "dQw4w9WgXcQ" } (by decide) (Or.inl rfl)

/-! ## Claim C7 -/

/-- C7 (amended): when the tool exits 0 but its output is not parseable
JSON, the handler returns a success=false body whose error is exactly
"Invalid JSON response from yt-dlp" (the spec's "Invalid JSON response"
extended by the " from yt-dlp" suffix the code appends). -/
theorem C7_invalid_json (env : Env) (req : TranscriptRequest) (out err : String)
    (hv : (extract_video_id req.video_id).length = 11)
    (h1 : env.ytdlp (watchUrl (extract_video_id req.video_id))
      = SubprocResult.done 0 out err)
    (h2 : env.jsonParse out = none) :
    get_transcript env req = HandlerResult.ok
      { success := false, videoId := req.video_id,
        error := some "Invalid JSON response from yt-dlp" } := by
  apply handler_of_error hv
  simp only [get_yt_dlp_data, h1, h2]
  rfl

/-- Environment in which `yt-dlp` exits 0 with non-JSON output. -/
def envBadJson : Env where
  ytdlp := fun _ => SubprocResult.done 0 "not json" ""
  jsonParse := fun _ => none
  curl := fun _ => SubprocResult.timeout
  xmlParse := fun _ => Except.error "XML parse failure"
  joinNoneMsg := "join TypeError"

/-- Counterexample to C7 as stated: on non-JSON output the error field is
"Invalid JSON response from yt-dlp", which is not exactly "Invalid JSON
response". -/
theorem C7_counterexample :
    get_transcript envBadJson { video_id := "dQw4w9WgXcQ" } = HandlerResult.ok
      { success := false, videoId := "dQw4w9WgXcQ",
        error := some "Invalid JSON response from yt-dlp" } ∧
    ∀ resp, get_transcript envBadJson { video_id := "dQw4w9WgXcQ" }
        = HandlerResult.ok resp →
      resp.error ≠ some "Invalid JSON response" := by
  have h0 : get_transcript envBadJson { video_id := "dQw4w9WgXcQ" } = HandlerResult.ok
      { success := false, videoId := "dQw4w9WgXcQ",
        error := some "Invalid JSON response from yt-dlp" } := by decide
  refine ⟨h0, fun resp h => ?_⟩
  rw [h0] at h
  injection h with hr
  rw [← hr]
  decide

/-- Witness for C7 (amended). -/
theorem C7_witness :
    get_transcript envBadJson { video_id := "dQw4w9WgXcQ" } = HandlerResult.ok
      { success := false, videoId := "dQw4w9WgXcQ",
        error := some "Invalid JSON response from yt-dlp" } :=
  C7_invalid_json envBadJson { video_id := "dQw4w9WgXcQ" } "not json" ""
    (by decide) rfl rfl

/-! ## Claim C8 -/

/-- C8: on a non-zero tool exit the handler returns a success=false body
whose error message carries the tool's standard-error text (wrapped by the
code's "Error: yt-dlp error: " prefixes). -/
theorem C8_nonzero_exit (env : Env) (req : TranscriptRequest) (rc : Int)
    (out err : String)
    (hv : (extract_video_id req.video_id).length = 11)
    (h1 : env.ytdlp (watchUrl (extract_video_id req.video_id))
      = SubprocResult.done rc out err)
    (h2 : rc ≠ 0) :
    get_transcript env req = HandlerResult.ok
      { success := false, videoId := req.video_id,
        error := some ("Error: " ++ ("yt-dlp error: " ++ err)) } ∧
    ∃ pre rest, "Error: " ++ ("yt-dlp error: " ++ err) = pre ++ err ++ rest := by
  refine ⟨?_, "Error: yt-dlp error: ", "", ?_⟩
  · have hdata : get_yt_dlp_data env (extract_video_id req.video_id)
        = (Except.error ("Error: " ++ ("yt-dlp error: " ++ err)), []) := by
      simp only [get_yt_dlp_data, h1, if_pos h2]
      rfl
    exact handler_of_error hv hdata
  · have hlit : ("Error: " : String) ++ "yt-dlp error: " = "Error: yt-dlp error: " := rfl
    rw [← String.append_assoc, hlit, String.append_empty]

/-- Environment in which `yt-dlp` exits 1 with diagnostic text `boom`. -/
def envExit : Env where
  ytdlp := fun _ => SubprocResult.done 1 "" "boom"
  jsonParse := fun _ => none
  curl := fun _ => SubprocResult.timeout
  xmlParse := fun _ => Except.error "XML parse failure"
  joinNoneMsg := "join TypeError"

/-- Witness for C8: diagnostic `boom` is carried into the error field. -/
theorem C8_witness :
    get_transcript envExit { video_id := "dQw4w9WgXcQ" } = HandlerResult.ok
      { success := false, videoId := "dQw4w9WgXcQ",
        error := some ("Error: " ++ ("yt-dlp error: " ++ "boom")) } ∧
    ∃ pre rest, "Error: " ++ ("yt-dlp error: " ++ "boom") = pre ++ "boom" ++ rest :=
  C8_nonzero_exit envExit { video_id := "dQw4w9WgXcQ" } 1 "" "boom"
    (by decide) rfl (by decide)

/-! ## Claim C9 -/

/-- C9: when the pipeline fails after validation succeeded, the failure
body's videoId is the raw request string (possibly a full URL), while a
successful response carries the normalized identifier. -/
theorem C9_videoId_raw_on_failure (env : Env) (req : TranscriptRequest)
    (hv : (extract_video_id req.video_id).length = 11) :
    (∀ e log, get_yt_dlp_data env (extract_video_id req.video_id)
        = (Except.error e, log) →
      ∃ resp, get_transcript env req = HandlerResult.ok resp ∧
        resp.success = false ∧ resp.videoId = req.video_id) ∧
    (∀ d log, get_yt_dlp_data env (extract_video_id req.video_id)
        = (Except.ok d, log) →
      ∃ resp, get_transcript env req = HandlerResult.ok resp ∧
        resp.success = true ∧ resp.videoId = extract_video_id req.video_id) := by
  constructor
  · intro e log h
    exact ⟨_, handler_of_error hv h, rfl, rfl⟩
  · intro d log h
    exact ⟨_, handler_of_ok hv h, rfl, rfl⟩

/-- Witness for C9: on a short-link URL whose pipeline times out, the
failure body carries the full URL, which differs from the normalized
identifier. -/
theorem C9_witness :
    (∃ resp, get_transcript sampleEnv { video_id := "https://youtu.be/dQw4w9WgXcQ" }
        = HandlerResult.ok resp ∧
      resp.success = false ∧ resp.videoId = "https://youtu.be/dQw4w9WgXcQ") ∧
    "https://youtu.be/dQw4w9WgXcQ" ≠ extract_video_id "https://youtu.be/dQw4w9WgXcQ" :=
  ⟨(C9_videoId_raw_on_failure sampleEnv { video_id := "https://youtu.be/dQw4w9WgXcQ" }
      (by decide)).1 "Request timeout" [] rfl, by decide⟩

/-! ## Claim C10 -/

/-- C10: when the fetched timed-text document contains a text element
with no text node, the single-space join raises, and the request returns
a success=false body with a stringified error and no transcript or
metadata fields. -/
theorem C10_none_text_failure (env : Env) (req : TranscriptRequest)
    (out err doc err2 : String) (rc2 : Int) (data : ExtractionData)
    (url : String) (rest : List String) (elems : List (Option String))
    (hv : (extract_video_id req.video_id).length = 11)
    (h1 : env.ytdlp (watchUrl (extract_video_id req.video_id))
      = SubprocResult.done 0 out err)
    (h2 : env.jsonParse out = some data)
    (h3 : data.subtitles.bind (lookupKey "en") = some (url :: rest))
    (h4 : env.curl url = SubprocResult.done rc2 doc err2)
    (h5 : env.xmlParse doc = Except.ok elems)
    (h6 : none ∈ elems) :
    get_transcript env req = HandlerResult.ok
      { success := false, videoId := req.video_id,
        error := some ("Error: " ++ env.joinNoneMsg) } ∧
    ({ success := false, videoId := req.video_id,
        error := some ("Error: " ++ env.joinNoneMsg) } : TranscriptResponse).transcript
      = none ∧
    ({ success := false, videoId := req.video_id,
        error := some ("Error: " ++ env.joinNoneMsg) } : TranscriptResponse).videoTitle
      = none := by
  have hall : elems.all (fun t => t.isSome) = false := by
    cases hA : elems.all (fun t => t.isSome) with
    | false => rfl
    | true =>
      rw [List.all_eq_true] at hA
      have := hA none h6
      simp at this
  have hjoin : joinTexts env elems = Except.error (PyErr.exc env.joinNoneMsg) := by
    rw [joinTexts, if_neg (by simp [hall])]
  have hfetch : fetchTranscript env url
      = Except.error (PyErr.exc env.joinNoneMsg) := by
    simp only [fetchTranscript, h4, h5, hjoin]
  have hstep : transcriptStep env data
      = (Except.error (PyErr.exc env.joinNoneMsg), [url]) := by
    simp only [transcriptStep, h3, hfetch]
  refine ⟨?_, rfl, rfl⟩
  apply handler_of_error hv
  simp only [get_yt_dlp_data, h1, h2, hstep]
  rfl

/-- Environment whose caption document parses into a single empty text
element. -/
def envNoneText : Env where
  ytdlp := fun _ => SubprocResult.done 0 "json" ""
  jsonParse := fun _ => some dataBoth
  curl := fun _ => SubprocResult.done 0 "doc" ""
  xmlParse := fun _ => Except.ok [none]
  joinNoneMsg := "join TypeError"

/-- Witness for C10: a `<text/>` element causes a success=false body with
a stringified error. -/
theorem C10_witness :
    get_transcript envNoneText { video_id := "dQw4w9WgXcQ" } = HandlerResult.ok
      { success := false, videoId := "dQw4w9WgXcQ",
        error := some ("Error: " ++ envNoneText.joinNoneMsg) } :=
  (C10_none_text_failure envNoneText { video_id := "dQw4w9WgXcQ" } "json" "" "doc" "" 0
    dataBoth "https://c/manual" [] [none]
    (by decide) rfl rfl (by decide) rfl rfl (by simp)).1

end YtSvc
